import Mathlib

/-!
# Verification of the terraform-provider-azurerm specification

A shallow embedding, in Lean 4, of the parts of the `terraform-provider-azurerm`
repository that the specification's claims are about:

* the generated resource-ID parsers and formatters
  (`parse.SqlRoleAssigmentId` and friends);
* the resource declarations (schema + Create/Read/Update/Delete/Importer);
* the CRUD templates (existence check on create, not-found handling on read);
* the provisioning-state polling loop of the PowerShell 7.2 module resource;
* the embedded chaos SDK's pagination (`ListResponse.LoadMore` / `ListComplete`);
* the generated Kusto `ScriptsClient.CheckNameAvailability` client method;
* `expandManagedInstanceSkuName`.

Go strings are modelled as `List Char` (written `GoStr`), fallible Go functions
as `Except GoErr _`, and remote calls as values drawn from an explicit
environment, with the list of issued calls returned alongside the result.
-/

/-- Go strings are modelled as lists of characters. -/
abbrev GoStr := List Char

/-- Shorthand for the character list of a string literal. -/
def str (s : String) : GoStr := s.data

/-- The error values the embedded Go code can produce.  Distinct `fmt.Errorf`
sites are distinguished by constructor; message payloads are dropped. -/
inductive GoErr where
  | oddSegments
  | emptyKeyValue
  | noSubscription
  | missingSubscriptionsElement
  | missingResourceGroupsElement
  | missingElement (key : GoStr)
  | extraSegments
  | wrongPartCount
  | unknownSkuTier
  | validationError
  | preparingFailure
  | sendingFailure
  | respondingFailure
  | checkingExistingFailure
  | importAsExists (resourceType : GoStr)
  | creatingFailure
  | retrievingFailure
  | moduleErrorMessage (msg : GoStr)
  | unexpectedState (state : GoStr)
  | timeout
  | readFailure
  | noMorePages
  | pageLoadFailure
  deriving DecidableEq, Repr

deriving instance DecidableEq for Except

/-- `strings.Split s (String.mk [sep])` from Go, on the character-list model:
splits at every occurrence of `sep`; `Split "" sep = [""]`. -/
def goSplit (sep : Char) : GoStr → List GoStr
  | [] => [[]]
  | c :: rest =>
    match goSplit sep rest with
    | [] => [[]]
    | s :: ss => if c = sep then [] :: s :: ss else (c :: s) :: ss

/-- `strings.TrimPrefix s "/"`: drops one leading `'/'` if present. -/
def trimLeadSlash : GoStr → GoStr
  | '/' :: rest => rest
  | s => s

/-- `strings.TrimSuffix s "/"`: drops one trailing `'/'` if present. -/
def trimTrailSlash (s : GoStr) : GoStr :=
  if s.getLast? = some '/' then s.dropLast else s

/-- Association-list model of a Go `map[string]string`: assignment replaces an
existing binding for the key, otherwise appends. -/
def mapInsert (m : List (GoStr × GoStr)) (k v : GoStr) : List (GoStr × GoStr) :=
  match m with
  | [] => [(k, v)]
  | (k', v') :: rest => if k' = k then (k, v) :: rest else (k', v') :: mapInsert rest k v

/-- Go map lookup. -/
def mapLookup (m : List (GoStr × GoStr)) (k : GoStr) : Option GoStr :=
  match m with
  | [] => none
  | (k', v) :: rest => if k' = k then some v else mapLookup rest k

/-- Go `delete(m, k)`. -/
def mapErase (m : List (GoStr × GoStr)) (k : GoStr) : List (GoStr × GoStr) :=
  match m with
  | [] => []
  | (k', v) :: rest => if k' = k then rest else (k', v) :: mapErase rest k

/-- Modelled from the spec: the repository's shared ID-parsing helper
`helpers/azure.ParseAzureResourceID` is not among the provided source files
(only its callers and the generated parser tests are), so its result type is
reconstructed from the spec's description of the "ID parsers/formatters" and
the behaviour pinned by the generated tests under `src`:
an Azure resource ID is a `/`-separated path of key/value pairs holding a
subscription ID, a resource group, a provider namespace and the remaining
typed segments. -/
structure AzureResourceID where
  SubscriptionID : GoStr
  ResourceGroup : GoStr
  Provider : GoStr
  Path : List (GoStr × GoStr)
  deriving DecidableEq, Repr

/-- Pairs up the even-length component list, rejecting empty keys or values;
the first `subscriptions` value is captured separately (as the subscription
ID), every other pair goes to the path map. -/
def buildComponents : List GoStr → GoStr → List (GoStr × GoStr) →
    Except GoErr (GoStr × List (GoStr × GoStr))
  | [], sub, m => .ok (sub, m)
  | [_], _, _ => .error .oddSegments
  | k :: v :: rest, sub, m =>
    if k = [] ∨ v = [] then .error .emptyKeyValue
    else if k = str "subscriptions" ∧ sub = [] then buildComponents rest v m
    else buildComponents rest sub (mapInsert m k v)

/-- The provider extraction step of the parser: moves the `providers` value
out of the path map when present. -/
def extractProvider (sub rg : GoStr) (m : List (GoStr × GoStr)) : AzureResourceID :=
  match mapLookup m (str "providers") with
  | some prov => ⟨sub, rg, prov, mapErase m (str "providers")⟩
  | none => ⟨sub, rg, [], m⟩

/-- The resource-group extraction step of the parser: moves the
`resourceGroups` value (either casing) out of the path map when present. -/
def extractResourceGroup (sub : GoStr) (m : List (GoStr × GoStr)) : AzureResourceID :=
  match mapLookup m (str "resourceGroups") with
  | some rg => extractProvider sub rg (mapErase m (str "resourceGroups"))
  | none =>
    match mapLookup m (str "resourcegroups") with
    | some rg => extractProvider sub rg (mapErase m (str "resourcegroups"))
    | none => extractProvider sub [] m

/-- Modelled from the spec: `helpers/azure.ParseAzureResourceID` (absent from
the provided sources; the spec calls it the shared "ID-parsing/validation"
helper).  Trims one leading and trailing `/`, splits on `/`, requires an even
number of segments and non-empty keys and values, extracts the subscription
ID, resource group (either casing) and provider, and keeps the remaining
key/value pairs as the path. -/
def ParseAzureResourceID (input : GoStr) : Except GoErr AzureResourceID :=
  let path := trimTrailSlash (trimLeadSlash input)
  let components := goSplit '/' path
  if components.length % 2 ≠ 0 then .error .oddSegments
  else
    match buildComponents components [] [] with
    | .error e => .error e
    | .ok (sub, m) =>
      if sub = [] then .error .noSubscription
      else .ok (extractResourceGroup sub m)

/-- `(id *ResourceID) PopSegment(name)`: removes and returns the value of the
named path segment, erroring when it is absent. -/
def AzureResourceID.popSegment (id : AzureResourceID) (key : GoStr) :
    Except GoErr (GoStr × AzureResourceID) :=
  match mapLookup id.Path key with
  | none => .error (.missingElement key)
  | some v => .ok (v, { id with Path := mapErase id.Path key })

/-- `(id *ResourceID) ValidateNoEmptySegments`: fails when path segments are
left over after all expected segments were popped. -/
def AzureResourceID.validateNoEmptySegments (id : AzureResourceID) : Except GoErr Unit :=
  if id.Path = [] then .ok () else .error .extraSegments

/-- `parse.SqlRoleAssigmentId` (cosmos), from the generated parser file. -/
structure SqlRoleAssigmentId where
  SubscriptionId : GoStr
  ResourceGroup : GoStr
  DatabaseAccountName : GoStr
  SqlRoleAssignmentName : GoStr
  deriving DecidableEq, Repr

/-- `parse.NewSqlRoleAssigmentID`. -/
def NewSqlRoleAssigmentID (subscriptionId resourceGroup databaseAccountName
    sqlRoleAssignmentName : GoStr) : SqlRoleAssigmentId :=
  ⟨subscriptionId, resourceGroup, databaseAccountName, sqlRoleAssignmentName⟩

/-- `(id SqlRoleAssigmentId) ID()`: the `fmt.Sprintf` over the canonical
format string. -/
def SqlRoleAssigmentId.ID (id : SqlRoleAssigmentId) : GoStr :=
  str "/subscriptions/" ++ id.SubscriptionId ++
  str "/resourceGroups/" ++ id.ResourceGroup ++
  str "/providers/Microsoft.DocumentDB/databaseAccounts/" ++ id.DatabaseAccountName ++
  str "/sqlRoleAssignments/" ++ id.SqlRoleAssignmentName

/-- `parse.SqlRoleAssigmentID`: parses a SqlRoleAssigment ID string into a
`SqlRoleAssigmentId`, mirroring the generated Go parser line by line. -/
def SqlRoleAssigmentID (input : GoStr) : Except GoErr SqlRoleAssigmentId :=
  match ParseAzureResourceID input with
  | .error e => .error e
  | .ok id =>
    if id.SubscriptionID = [] then .error .missingSubscriptionsElement
    else if id.ResourceGroup = [] then .error .missingResourceGroupsElement
    else
      match id.popSegment (str "databaseAccounts") with
      | .error e => .error e
      | .ok (databaseAccountName, id') =>
        match id'.popSegment (str "sqlRoleAssignments") with
        | .error e => .error e
        | .ok (sqlRoleAssignmentName, id'') =>
          match id''.validateNoEmptySegments with
          | .error e => .error e
          | .ok _ =>
            .ok ⟨id.SubscriptionID, id.ResourceGroup, databaseAccountName,
                 sqlRoleAssignmentName⟩

example : SqlRoleAssigmentID (str "/subscriptions/s1/resourceGroups/g1/providers/Microsoft.DocumentDB/databaseAccounts/a1/sqlRoleAssignments/r1")
    = .ok ⟨str "s1", str "g1", str "a1", str "r1"⟩ := by decide

theorem goSplit_ne_nil (sep : Char) (s : GoStr) : goSplit sep s ≠ [] := by
  cases s with
  | nil => simp [goSplit]
  | cons c rest =>
    simp only [goSplit]
    cases goSplit sep rest with
    | nil => simp
    | cons x xs => by_cases hc : c = sep <;> simp [hc]

theorem goSplit_no_sep {sep : Char} {s : GoStr} (h : sep ∉ s) :
    goSplit sep s = [s] := by
  induction s with
  | nil => rfl
  | cons c rest ih =>
    simp only [List.mem_cons, not_or] at h
    simp only [goSplit, ih h.2]
    rw [if_neg (Ne.symm h.1)]

theorem goSplit_append_sep {sep : Char} {s : GoStr} (rest : GoStr) (h : sep ∉ s) :
    goSplit sep (s ++ sep :: rest) = s :: goSplit sep rest := by
  induction s with
  | nil =>
    simp only [List.nil_append, goSplit]
    cases hr : goSplit sep rest with
    | nil => exact absurd hr (goSplit_ne_nil sep rest)
    | cons x xs => simp
  | cons c cs ih =>
    simp only [List.mem_cons, not_or] at h
    simp only [List.cons_append, goSplit, List.append_eq, ih h.2]
    rw [if_neg (Ne.symm h.1)]

theorem trimLeadSlash_cons (rest : GoStr) : trimLeadSlash ('/' :: rest) = rest := rfl

theorem trimTrailSlash_of_getLast {s : GoStr} (h : s.getLast? ≠ some '/') :
    trimTrailSlash s = s := by
  unfold trimTrailSlash
  rw [if_neg h]

theorem getLast?_append_ne {l m : GoStr} (h : m.getLast? ≠ some '/') (hm : m ≠ []) :
    (l ++ m).getLast? ≠ some '/' := by
  rw [List.getLast?_append_of_ne_nil _ hm]; exact h

theorem getLast?_cons_ne {x : Char} {m : GoStr} (h : m.getLast? ≠ some '/') (hm : m ≠ []) :
    (x :: m).getLast? ≠ some '/' := by
  rw [show x :: m = [x] ++ m from rfl, List.getLast?_append_of_ne_nil _ hm]; exact h

theorem getLast?_ne_of_not_mem {c : Char} {s : GoStr} (h : c ∉ s) :
    s.getLast? ≠ some c := by
  induction s with
  | nil => simp
  | cons a rest ih =>
    simp only [List.mem_cons, not_or] at h
    cases rest with
    | nil =>
      simp only [List.getLast?_singleton, ne_eq, Option.some.injEq]
      exact fun hh => h.1 hh.symm
    | cons b bs =>
      rw [List.getLast?_cons_cons]
      exact ih h.2

example : SqlRoleAssigmentID (str "") = .error .oddSegments := by decide

example : SqlRoleAssigmentID (str "/subscriptions/s1/resourceGroups/g1") = .error (.missingElement (str "databaseAccounts")) := by decide

/-- The canonical SqlRoleAssigment ID path, leading slash removed and
right-associated, as produced by `SqlRoleAssigmentId.ID`. -/
def sqlRoleAssigmentPath (a b c d : GoStr) : GoStr :=
  str "subscriptions" ++ '/' :: (a ++ '/' :: (str "resourceGroups" ++ '/' ::
    (b ++ '/' :: (str "providers" ++ '/' :: (str "Microsoft.DocumentDB" ++ '/' ::
      (str "databaseAccounts" ++ '/' :: (c ++ '/' ::
        (str "sqlRoleAssignments" ++ '/' :: d))))))))

theorem trimLeadSlash_ID (a b c d : GoStr) :
    trimLeadSlash ((NewSqlRoleAssigmentID a b c d).ID) = sqlRoleAssigmentPath a b c d := by
  simp only [NewSqlRoleAssigmentID, SqlRoleAssigmentId.ID, sqlRoleAssigmentPath,
    List.append_assoc]
  rfl

theorem sqlRoleAssigmentPath_getLast {a b c d : GoStr} (hd : d ≠ []) (hd' : '/' ∉ d) :
    (sqlRoleAssigmentPath a b c d).getLast? ≠ some '/' := by
  have l9 : (str "sqlRoleAssignments" ++ '/' :: d).getLast? ≠ some '/' :=
    getLast?_append_ne (getLast?_cons_ne (getLast?_ne_of_not_mem hd') hd)
      (List.cons_ne_nil _ _)
  have l8 : (c ++ '/' :: (str "sqlRoleAssignments" ++ '/' :: d)).getLast? ≠ some '/' :=
    getLast?_append_ne (getLast?_cons_ne l9 (by simp)) (List.cons_ne_nil _ _)
  have l7 : (str "databaseAccounts" ++ '/' :: (c ++ '/' ::
      (str "sqlRoleAssignments" ++ '/' :: d))).getLast? ≠ some '/' :=
    getLast?_append_ne (getLast?_cons_ne l8 (by simp)) (List.cons_ne_nil _ _)
  have l6 : (str "Microsoft.DocumentDB" ++ '/' :: (str "databaseAccounts" ++ '/' ::
      (c ++ '/' :: (str "sqlRoleAssignments" ++ '/' :: d)))).getLast? ≠ some '/' :=
    getLast?_append_ne (getLast?_cons_ne l7 (by simp)) (List.cons_ne_nil _ _)
  have l5 : (str "providers" ++ '/' :: (str "Microsoft.DocumentDB" ++ '/' ::
      (str "databaseAccounts" ++ '/' :: (c ++ '/' ::
        (str "sqlRoleAssignments" ++ '/' :: d))))).getLast? ≠ some '/' :=
    getLast?_append_ne (getLast?_cons_ne l6 (by simp)) (List.cons_ne_nil _ _)
  have l4 : (b ++ '/' :: (str "providers" ++ '/' :: (str "Microsoft.DocumentDB" ++ '/' ::
      (str "databaseAccounts" ++ '/' :: (c ++ '/' ::
        (str "sqlRoleAssignments" ++ '/' :: d)))))).getLast? ≠ some '/' :=
    getLast?_append_ne (getLast?_cons_ne l5 (by simp)) (List.cons_ne_nil _ _)
  have l3 : (str "resourceGroups" ++ '/' :: (b ++ '/' :: (str "providers" ++ '/' ::
      (str "Microsoft.DocumentDB" ++ '/' :: (str "databaseAccounts" ++ '/' ::
        (c ++ '/' :: (str "sqlRoleAssignments" ++ '/' :: d))))))).getLast? ≠ some '/' :=
    getLast?_append_ne (getLast?_cons_ne l4 (by simp)) (List.cons_ne_nil _ _)
  have l2 : (a ++ '/' :: (str "resourceGroups" ++ '/' :: (b ++ '/' ::
      (str "providers" ++ '/' :: (str "Microsoft.DocumentDB" ++ '/' ::
        (str "databaseAccounts" ++ '/' :: (c ++ '/' ::
          (str "sqlRoleAssignments" ++ '/' :: d)))))))).getLast? ≠ some '/' :=
    getLast?_append_ne (getLast?_cons_ne l3 (by simp)) (List.cons_ne_nil _ _)
  exact getLast?_append_ne (getLast?_cons_ne l2 (by simp)) (List.cons_ne_nil _ _)

theorem goSplit_sqlRoleAssigmentPath {a b c d : GoStr}
    (ha' : '/' ∉ a) (hb' : '/' ∉ b) (hc' : '/' ∉ c) (hd' : '/' ∉ d) :
    goSplit '/' (sqlRoleAssigmentPath a b c d) =
      [str "subscriptions", a, str "resourceGroups", b, str "providers",
       str "Microsoft.DocumentDB", str "databaseAccounts", c,
       str "sqlRoleAssignments", d] := by
  unfold sqlRoleAssigmentPath
  rw [goSplit_append_sep _ (by decide), goSplit_append_sep _ ha',
      goSplit_append_sep _ (by decide), goSplit_append_sep _ hb',
      goSplit_append_sep _ (by decide), goSplit_append_sep _ (by decide),
      goSplit_append_sep _ (by decide), goSplit_append_sep _ hc',
      goSplit_append_sep _ (by decide), goSplit_no_sep hd']

/-- C3: for components that are non-empty and contain no `/`, formatting a
`SqlRoleAssigmentId` with `ID()` and parsing the result with
`SqlRoleAssigmentID` round-trips to the original struct. -/
theorem claim_C3_sqlRoleAssigmentID_roundtrip (a b c d : GoStr)
    (ha : a ≠ []) (hb : b ≠ []) (hc : c ≠ []) (hd : d ≠ [])
    (ha' : '/' ∉ a) (hb' : '/' ∉ b) (hc' : '/' ∉ c) (hd' : '/' ∉ d) :
    SqlRoleAssigmentID (NewSqlRoleAssigmentID a b c d).ID =
      .ok (NewSqlRoleAssigmentID a b c d) := by
  simp only [SqlRoleAssigmentID, ParseAzureResourceID]
  rw [trimLeadSlash_ID, trimTrailSlash_of_getLast (sqlRoleAssigmentPath_getLast hd hd'),
      goSplit_sqlRoleAssigmentPath ha' hb' hc' hd']
  simp +decide [buildComponents, mapInsert, mapLookup, mapErase,
    extractResourceGroup, extractProvider,
    AzureResourceID.popSegment, AzureResourceID.validateNoEmptySegments,
    NewSqlRoleAssigmentID, ha, hb, hc, hd]

/-- Witness for C3 at the concrete components of the generated parser test. -/
theorem claim_C3_witness :
    (str "12345678-1234-9876-4563-123456789012" ≠ [] ∧ '/' ∉ str "resGroup1") ∧
    SqlRoleAssigmentID (NewSqlRoleAssigmentID (str "12345678-1234-9876-4563-123456789012")
        (str "resGroup1") (str "acc1") (str "roleAssignment1")).ID =
      .ok (NewSqlRoleAssigmentID (str "12345678-1234-9876-4563-123456789012")
        (str "resGroup1") (str "acc1") (str "roleAssignment1")) :=
  ⟨⟨by decide, by decide⟩,
   claim_C3_sqlRoleAssigmentID_roundtrip _ _ _ _ (by decide) (by decide) (by decide)
     (by decide) (by decide) (by decide) (by decide) (by decide)⟩

/-- True when the result is Go's `err != nil` case. -/
def isErr {α : Type} : Except GoErr α → Bool
  | .error _ => true
  | .ok _ => false

/-- All values stored in the path map are non-empty strings. -/
def noEmptyValues (m : List (GoStr × GoStr)) : Prop := ∀ p ∈ m, p.2 ≠ []

theorem mapInsert_noEmpty {m : List (GoStr × GoStr)} {k v : GoStr}
    (hm : noEmptyValues m) (hv : v ≠ []) : noEmptyValues (mapInsert m k v) := by
  induction m with
  | nil => intro p hp; simp only [mapInsert, List.mem_singleton] at hp; simp [hp, hv]
  | cons q rest ih =>
    intro p hp
    obtain ⟨k', v'⟩ := q
    simp only [mapInsert] at hp
    split at hp
    · rcases List.mem_cons.mp hp with h | h
      · simp [h, hv]
      · exact hm p (List.mem_cons_of_mem _ h)
    · rcases List.mem_cons.mp hp with h | h
      · exact hm p (h ▸ List.mem_cons_self _ _)
      · exact ih (fun q hq => hm q (List.mem_cons_of_mem _ hq)) p h

theorem mapErase_noEmpty {m : List (GoStr × GoStr)} {k : GoStr}
    (hm : noEmptyValues m) : noEmptyValues (mapErase m k) := by
  induction m with
  | nil => intro p hp; simp [mapErase] at hp
  | cons q rest ih =>
    intro p hp
    obtain ⟨k', v'⟩ := q
    simp only [mapErase] at hp
    split at hp
    · exact hm p (List.mem_cons_of_mem _ hp)
    · rcases List.mem_cons.mp hp with h | h
      · exact hm p (h ▸ List.mem_cons_self _ _)
      · exact ih (fun q hq => hm q (List.mem_cons_of_mem _ hq)) p h

theorem mapLookup_noEmpty {m : List (GoStr × GoStr)} {k v : GoStr}
    (hm : noEmptyValues m) (h : mapLookup m k = some v) : v ≠ [] := by
  induction m with
  | nil => simp [mapLookup] at h
  | cons q rest ih =>
    obtain ⟨k', v'⟩ := q
    simp only [mapLookup] at h
    split at h
    · cases h; exact hm (k', v) (List.mem_cons_self _ _)
    · exact ih (fun q hq => hm q (List.mem_cons_of_mem _ hq)) h

theorem buildComponents_noEmpty :
    ∀ (comps : List GoStr) (sub : GoStr) (m : List (GoStr × GoStr))
      {sub' : GoStr} {m' : List (GoStr × GoStr)},
      noEmptyValues m → buildComponents comps sub m = .ok (sub', m') →
      noEmptyValues m'
  | [], _, _, _, _, hm, h => by
    simp only [buildComponents, Except.ok.injEq, Prod.mk.injEq] at h
    exact h.2 ▸ hm
  | [_], _, _, _, _, _, h => by simp [buildComponents] at h
  | k :: v :: rest, sub, m, sub', m', hm, h => by
    simp only [buildComponents] at h
    split at h
    · simp at h
    · split at h
      · exact buildComponents_noEmpty rest v m hm h
      · have hv : v ≠ [] := by
          rename_i hkv _
          intro hv'
          exact hkv (Or.inr hv')
        exact buildComponents_noEmpty rest sub (mapInsert m k v)
          (mapInsert_noEmpty hm hv) h

theorem extractProvider_spec (sub rg : GoStr) (m : List (GoStr × GoStr))
    (hm : noEmptyValues m) :
    (extractProvider sub rg m).SubscriptionID = sub ∧
    noEmptyValues (extractProvider sub rg m).Path := by
  unfold extractProvider
  split
  · exact ⟨rfl, mapErase_noEmpty hm⟩
  · exact ⟨rfl, hm⟩

theorem extractResourceGroup_spec (sub : GoStr) (m : List (GoStr × GoStr))
    (hm : noEmptyValues m) :
    (extractResourceGroup sub m).SubscriptionID = sub ∧
    noEmptyValues (extractResourceGroup sub m).Path := by
  unfold extractResourceGroup
  split
  · exact extractProvider_spec _ _ _ (mapErase_noEmpty hm)
  · split
    · exact extractProvider_spec _ _ _ (mapErase_noEmpty hm)
    · exact extractProvider_spec _ _ _ hm

theorem parseAzureResourceID_ok {input : GoStr} {id : AzureResourceID}
    (h : ParseAzureResourceID input = .ok id) :
    id.SubscriptionID ≠ [] ∧ noEmptyValues id.Path := by
  unfold ParseAzureResourceID at h
  dsimp only at h
  split at h
  · simp at h
  · split at h
    · simp at h
    · rename_i sub m hbc
      split at h
      · simp at h
      · rename_i hsub
        have hm : noEmptyValues m :=
          buildComponents_noEmpty _ [] [] (by intro p hp; simp at hp) hbc
        simp only [Except.ok.injEq] at h
        subst h
        obtain ⟨h1, h2⟩ := extractResourceGroup_spec sub m hm
        exact ⟨by rw [h1]; exact hsub, h2⟩

theorem popSegment_noEmpty {id : AzureResourceID} {key v : GoStr} {id' : AzureResourceID}
    (hm : noEmptyValues id.Path) (h : id.popSegment key = .ok (v, id')) :
    v ≠ [] ∧ noEmptyValues id'.Path := by
  unfold AzureResourceID.popSegment at h
  cases hl : mapLookup id.Path key with
  | none => rw [hl] at h; simp at h
  | some w =>
    rw [hl] at h
    simp only [Except.ok.injEq, Prod.mk.injEq] at h
    obtain ⟨hv, hid⟩ := h
    subst hv
    constructor
    · exact mapLookup_noEmpty hm hl
    · rw [← hid]; exact mapErase_noEmpty hm

theorem sqlRoleAssigmentID_ok_nonEmpty {input : GoStr} {id : SqlRoleAssigmentId}
    (h : SqlRoleAssigmentID input = .ok id) :
    id.SubscriptionId ≠ [] ∧ id.ResourceGroup ≠ [] ∧
    id.DatabaseAccountName ≠ [] ∧ id.SqlRoleAssignmentName ≠ [] := by
  unfold SqlRoleAssigmentID at h
  cases hp : ParseAzureResourceID input with
  | error e => rw [hp] at h; simp at h
  | ok rid =>
    rw [hp] at h
    dsimp only at h
    obtain ⟨-, hvals⟩ := parseAzureResourceID_ok hp
    by_cases h1 : rid.SubscriptionID = []
    · rw [if_pos h1] at h; simp at h
    · rw [if_neg h1] at h
      by_cases h2 : rid.ResourceGroup = []
      · rw [if_pos h2] at h; simp at h
      · rw [if_neg h2] at h
        cases hp1 : rid.popSegment (str "databaseAccounts") with
        | error e => rw [hp1] at h; simp at h
        | ok p1 =>
          obtain ⟨dba, rid1⟩ := p1
          rw [hp1] at h
          dsimp only at h
          obtain ⟨hdba, hvals1⟩ := popSegment_noEmpty hvals hp1
          cases hp2 : rid1.popSegment (str "sqlRoleAssignments") with
          | error e => rw [hp2] at h; simp at h
          | ok p2 =>
            obtain ⟨sra, rid2⟩ := p2
            rw [hp2] at h
            dsimp only at h
            obtain ⟨hsra, -⟩ := popSegment_noEmpty hvals1 hp2
            cases hv : rid2.validateNoEmptySegments with
            | error e => rw [hv] at h; simp at h
            | ok u =>
              rw [hv] at h
              dsimp only at h
              simp only [Except.ok.injEq] at h
              subst h
              exact ⟨h1, h2, hdba, hsra⟩

/-- C4: `SqlRoleAssigmentID` rejects malformed inputs — the empty string,
inputs missing the `subscriptions`, `resourceGroups`, `databaseAccounts` or
`sqlRoleAssignments` segment, inputs where one of those segments has an empty
value, and inputs with leftover extra segments — and whenever it succeeds the
resulting struct has no empty component. -/
theorem claim_C4_sqlRoleAssigmentID_errors :
    (∀ input id, SqlRoleAssigmentID input = .ok id →
        id.SubscriptionId ≠ [] ∧ id.ResourceGroup ≠ [] ∧
        id.DatabaseAccountName ≠ [] ∧ id.SqlRoleAssignmentName ≠ []) ∧
    isErr (SqlRoleAssigmentID (str "")) = true ∧
    isErr (SqlRoleAssigmentID (str "/")) = true ∧
    isErr (SqlRoleAssigmentID (str "/subscriptions/")) = true ∧
    isErr (SqlRoleAssigmentID
      (str "/resourceGroups/g1/providers/Microsoft.DocumentDB/databaseAccounts/a1/sqlRoleAssignments/r1")) = true ∧
    isErr (SqlRoleAssigmentID
      (str "/subscriptions//resourceGroups/g1/providers/Microsoft.DocumentDB/databaseAccounts/a1/sqlRoleAssignments/r1")) = true ∧
    isErr (SqlRoleAssigmentID (str "/subscriptions/s1/")) = true ∧
    isErr (SqlRoleAssigmentID
      (str "/subscriptions/s1/resourceGroups//providers/Microsoft.DocumentDB/databaseAccounts/a1/sqlRoleAssignments/r1")) = true ∧
    isErr (SqlRoleAssigmentID
      (str "/subscriptions/s1/resourceGroups/g1/providers/Microsoft.DocumentDB/sqlRoleAssignments/r1")) = true ∧
    isErr (SqlRoleAssigmentID
      (str "/subscriptions/s1/resourceGroups/g1/providers/Microsoft.DocumentDB/databaseAccounts//sqlRoleAssignments/r1")) = true ∧
    isErr (SqlRoleAssigmentID
      (str "/subscriptions/s1/resourceGroups/g1/providers/Microsoft.DocumentDB/databaseAccounts/a1")) = true ∧
    isErr (SqlRoleAssigmentID
      (str "/subscriptions/s1/resourceGroups/g1/providers/Microsoft.DocumentDB/databaseAccounts/a1/sqlRoleAssignments/")) = true ∧
    isErr (SqlRoleAssigmentID
      (str "/subscriptions/s1/resourceGroups/g1/providers/Microsoft.DocumentDB/databaseAccounts/a1/sqlRoleAssignments/r1/extra/segments")) = true :=
  ⟨fun _ _ h => sqlRoleAssigmentID_ok_nonEmpty h, by decide, by decide, by decide,
   by decide, by decide, by decide, by decide, by decide, by decide, by decide,
   by decide, by decide⟩

/-- Witness for C4's universal part at a concrete well-formed input. -/
theorem claim_C4_witness :
    SqlRoleAssigmentID
      (str "/subscriptions/s1/resourceGroups/g1/providers/Microsoft.DocumentDB/databaseAccounts/a1/sqlRoleAssignments/r1") =
      .ok ⟨str "s1", str "g1", str "a1", str "r1"⟩ ∧
    (str "s1" : GoStr) ≠ [] :=
  ⟨by decide,
   (claim_C4_sqlRoleAssigmentID_errors.1
     (str "/subscriptions/s1/resourceGroups/g1/providers/Microsoft.DocumentDB/databaseAccounts/a1/sqlRoleAssignments/r1")
     ⟨str "s1", str "g1", str "a1", str "r1"⟩ (by decide)).1⟩

/-- `parse.ManagedInstanceAzureActiveDirectoryAdministratorId` (sql).
Modelled from the spec: the generated parser/formatter file for this type is
absent from the provided sources (only its generated test is); per the spec's
"ID parsers/formatters ... following an identical template", its components
are the four names appearing in the canonical ID path. -/
structure ManagedInstanceAzureActiveDirectoryAdministratorId where
  SubscriptionId : GoStr
  ResourceGroup : GoStr
  ManagedInstanceName : GoStr
  AdministratorName : GoStr
  deriving DecidableEq, Repr

/-- Modelled from the spec: the generated
`NewManagedInstanceAzureActiveDirectoryAdministratorID` constructor. -/
def NewManagedInstanceAzureActiveDirectoryAdministratorID
    (subscriptionId resourceGroup managedInstanceName administratorName : GoStr) :
    ManagedInstanceAzureActiveDirectoryAdministratorId :=
  ⟨subscriptionId, resourceGroup, managedInstanceName, administratorName⟩

/-- Modelled from the spec: the generated `ID()` formatter of
`ManagedInstanceAzureActiveDirectoryAdministratorId`, the `fmt.Sprintf` over
the canonical format string pinned by the in-repo formatter test. -/
def ManagedInstanceAzureActiveDirectoryAdministratorId.ID
    (id : ManagedInstanceAzureActiveDirectoryAdministratorId) : GoStr :=
  str "/subscriptions/" ++ id.SubscriptionId ++
  str "/resourceGroups/" ++ id.ResourceGroup ++
  str "/providers/Microsoft.Sql/managedInstances/" ++ id.ManagedInstanceName ++
  str "/administrators/" ++ id.AdministratorName

/-- C5: both ID formatters return exactly the canonical Azure resource ID
path built from their components; at the generated test's concrete input the
ManagedInstance formatter reproduces the test's expected string. -/
theorem claim_C5_id_formatters :
    (∀ sub rg acc name : GoStr,
      (NewSqlRoleAssigmentID sub rg acc name).ID =
        str "/subscriptions/" ++ sub ++ str "/resourceGroups/" ++ rg ++
        str "/providers/Microsoft.DocumentDB/databaseAccounts/" ++ acc ++
        str "/sqlRoleAssignments/" ++ name) ∧
    (∀ sub rg inst name : GoStr,
      (NewManagedInstanceAzureActiveDirectoryAdministratorID sub rg inst name).ID =
        str "/subscriptions/" ++ sub ++ str "/resourceGroups/" ++ rg ++
        str "/providers/Microsoft.Sql/managedInstances/" ++ inst ++
        str "/administrators/" ++ name) ∧
    (NewManagedInstanceAzureActiveDirectoryAdministratorID
        (str "12345678-1234-9876-4563-123456789012") (str "resGroup1")
        (str "instance1") (str "activeDirectory")).ID =
      str "/subscriptions/12345678-1234-9876-4563-123456789012/resourceGroups/resGroup1/providers/Microsoft.Sql/managedInstances/instance1/administrators/activeDirectory" :=
  ⟨fun _ _ _ _ => rfl, fun _ _ _ _ => rfl, by decide⟩

/-- `sql.Sku` as populated by `expandManagedInstanceSkuName` (all three
pointer fields are set on success). -/
structure SqlSku where
  Name : GoStr
  Tier : GoStr
  Family : GoStr
  deriving DecidableEq, Repr

/-- `expandManagedInstanceSkuName` from the SQL managed instance resource:
splits the `sku_name` on `_`, requires exactly two parts, maps the `GP`/`BC`
prefix to the tier and keeps the second part as the family. -/
def expandManagedInstanceSkuName (skuName : GoStr) : Except GoErr SqlSku :=
  let parts := goSplit '_' skuName
  if parts.length ≠ 2 then .error .wrongPartCount
  else
    match parts with
    | p0 :: p1 :: _ =>
      if p0 = str "GP" then .ok ⟨skuName, str "GeneralPurpose", p1⟩
      else if p0 = str "BC" then .ok ⟨skuName, str "BusinessCritical", p1⟩
      else .error .unknownSkuTier
    | _ => .error .wrongPartCount

/-- C8: `expandManagedInstanceSkuName` errors exactly when the name does not
split on `_` into two parts or the first part is neither `GP` nor `BC`;
otherwise it returns a Sku with Name = the input, the tier spelled out, and
Family = the second part. -/
theorem claim_C8_expandManagedInstanceSkuName :
    (∀ skuName : GoStr, (goSplit '_' skuName).length ≠ 2 →
      isErr (expandManagedInstanceSkuName skuName) = true) ∧
    (∀ skuName p0 p1 : GoStr, goSplit '_' skuName = [p0, p1] →
      (p0 = str "GP" →
        expandManagedInstanceSkuName skuName = .ok ⟨skuName, str "GeneralPurpose", p1⟩) ∧
      (p0 = str "BC" →
        expandManagedInstanceSkuName skuName = .ok ⟨skuName, str "BusinessCritical", p1⟩) ∧
      (p0 ≠ str "GP" → p0 ≠ str "BC" →
        isErr (expandManagedInstanceSkuName skuName) = true)) := by
  constructor
  · intro skuName h
    unfold expandManagedInstanceSkuName
    dsimp only
    rw [if_pos h]
    rfl
  · intro skuName p0 p1 h
    refine ⟨?_, ?_, ?_⟩
    · intro hgp
      unfold expandManagedInstanceSkuName
      dsimp only
      rw [h, if_neg (by simp)]
      dsimp only
      rw [if_pos hgp]
    · intro hbc
      unfold expandManagedInstanceSkuName
      dsimp only
      rw [h, if_neg (by simp)]
      dsimp only
      by_cases hgp : p0 = str "GP"
      · exact absurd (hgp ▸ hbc) (by decide)
      · rw [if_neg hgp, if_pos hbc]
    · intro hgp hbc
      unfold expandManagedInstanceSkuName
      dsimp only
      rw [h, if_neg (by simp)]
      dsimp only
      rw [if_neg hgp, if_neg hbc]
      rfl

/-- Witness for C8 at the concrete SKU names of the resource's documentation
(`GP_Gen5`) and a malformed one. -/
theorem claim_C8_witness :
    goSplit '_' (str "GP_Gen5") = [str "GP", str "Gen5"] ∧
    expandManagedInstanceSkuName (str "GP_Gen5") =
      .ok ⟨str "GP_Gen5", str "GeneralPurpose", str "Gen5"⟩ ∧
    (goSplit '_' (str "NoUnderscore")).length ≠ 2 ∧
    isErr (expandManagedInstanceSkuName (str "NoUnderscore")) = true :=
  ⟨by decide,
   (claim_C8_expandManagedInstanceSkuName.2 (str "GP_Gen5") (str "GP") (str "Gen5")
     (by decide)).1 rfl,
   by decide,
   claim_C8_expandManagedInstanceSkuName.1 (str "NoUnderscore") (by decide)⟩

/-- A resource declaration as registered with the plugin SDK
(`&pluginsdk.Resource{...}`) or the typed SDK (`sdk.Resource`): the top-level
schema field names plus the Create/Read/Update/Delete/Importer handlers, each
recorded by its Go function name or `none` when the declaration omits it. -/
structure ResourceDeclaration where
  resourceName : GoStr
  schemaFields : List GoStr
  create : Option GoStr
  read : Option GoStr
  update : Option GoStr
  delete : Option GoStr
  importer : Option GoStr
  deriving DecidableEq, Repr

/-- `resourceCosmosDbRoleAssignment` (cosmos): `Update` is commented out in
the declaration. -/
def resourceCosmosDbRoleAssignment : ResourceDeclaration where
  resourceName := str "azurerm_cosmosdb_role_assignment"
  schemaFields := [str "name", str "cosmosdb_account_name", str "resource_group_name",
    str "scope", str "role_definition_id", str "role_definition_name", str "principal_id"]
  create := some (str "resourceCosmosDbRoleAssignmentCreateUpdate")
  read := some (str "resourceCosmosDbRoleAssignmentRead")
  update := none
  delete := some (str "resourceCosmosDbRoleAssignmentDelete")
  importer := some (str "DefaultImporter")

/-- `resourceAutomationPowerShell72Module` (automation). -/
def resourceAutomationPowerShell72Module : ResourceDeclaration where
  resourceName := str "azurerm_automation_powershell72_module"
  schemaFields := [str "name", str "automation_account_name",
    str "resource_group_name", str "module_link"]
  create := some (str "resourceAutomationPowerShell72ModuleCreate")
  read := some (str "resourceAutomationPowerShell72ModuleRead")
  update := some (str "resourceAutomationPowerShell72ModuleUpdate")
  delete := some (str "resourceAutomationPowerShell72ModuleDelete")
  importer := some (str "ImporterValidatingResourceId")

/-- `resourceKubernetesArcExtension` (containers): no `Update` handler. -/
def resourceKubernetesArcExtension : ResourceDeclaration where
  resourceName := str "azurerm_kubernetes_arc_extension"
  schemaFields := [str "name", str "cluster_name", str "location",
    str "resource_group_name"]
  create := some (str "resourceKubernetesArcExtensionCreate")
  read := some (str "resourceKubernetesArcExtensionRead")
  update := none
  delete := some (str "resourceKubernetesArcExtensionDelete")
  importer := some (str "ImporterValidatingResourceId")

/-- `resourceArmApplicationInsightsWorkBook` (applicationinsights). -/
def resourceArmApplicationInsightsWorkBook : ResourceDeclaration where
  resourceName := str "azurerm_application_insights_workbook"
  schemaFields := [str "name", str "resource_group_name",
    str "application_insights_id", str "location", str "kind", str "tags",
    str "workbook"]
  create := some (str "resourceArmApplicationInsightsWorkBookCreateUpdate")
  read := some (str "resourceArmApplicationInsightsWorkBookRead")
  update := some (str "resourceArmApplicationInsightsWorkBookCreateUpdate")
  delete := some (str "resourceArmApplicationInsightsWorkBookDelete")
  importer := some (str "ImportStatePassthrough")

/-- `resourceFirewallPolicy` (firewall). -/
def resourceFirewallPolicy : ResourceDeclaration where
  resourceName := str "azurerm_firewall_policy"
  schemaFields := [str "name", str "resource_group_name", str "sku",
    str "location", str "base_policy_id", str "dns",
    str "threat_intelligence_mode", str "threat_intelligence_allowlist",
    str "intrusion_detection", str "identity", str "tls_certificate",
    str "child_policies", str "firewalls", str "rule_collection_groups",
    str "private_ip_ranges", str "tags"]
  create := some (str "resourceFirewallPolicyCreateUpdate")
  read := some (str "resourceFirewallPolicyRead")
  update := some (str "resourceFirewallPolicyCreateUpdate")
  delete := some (str "resourceFirewallPolicyDelete")
  importer := some (str "ImporterValidatingResourceId")

/-- `resourceKubernetesMaintenanceConfiguration` (containers). -/
def resourceKubernetesMaintenanceConfiguration : ResourceDeclaration where
  resourceName := str "azurerm_kubernetes_maintenance_configuration"
  schemaFields := [str "name", str "kubernetes_cluster_id",
    str "maintenance_allowed", str "maintenance_not_allowed_window"]
  create := some (str "resourceKubernetesMaintenanceConfigurationCreate")
  read := some (str "resourceKubernetesMaintenanceConfigurationRead")
  update := some (str "resourceKubernetesMaintenanceConfigurationUpdate")
  delete := some (str "resourceKubernetesMaintenanceConfigurationDelete")
  importer := some (str "ImporterValidatingResourceId")

/-- `resourceFunctionAppHostKeys` (web): declares no `Importer`. -/
def resourceFunctionAppHostKeys : ResourceDeclaration where
  resourceName := str "azurerm_function_app_host_keys"
  schemaFields := [str "name", str "resource_group_name", str "primary_key",
    str "host_keys"]
  create := some (str "resourceFunctionAppHostKeysCreateUpdate")
  read := some (str "resourceFunctionAppHostKeysRead")
  update := some (str "resourceFunctionAppHostKeysCreateUpdate")
  delete := some (str "resourceFunctionAppHostKeysDelete")
  importer := none

/-- `resourceArmSqlMiServer` (sql). -/
def resourceArmSqlMiServer : ResourceDeclaration where
  resourceName := str "azurerm_sql_managed_instance"
  schemaFields := [str "name", str "location", str "resource_group_name",
    str "sku_name", str "administrator_login", str "administrator_login_password",
    str "vcores", str "storage_size_in_gb", str "license_type", str "subnet_id",
    str "collation", str "public_data_endpoint_enabled", str "minimum_tls_version",
    str "proxy_override", str "timezone_id", str "fqdn", str "dns_zone_partner_id",
    str "identity", str "azuread_administrator", str "tags"]
  create := some (str "resourceArmSqlMiServerCreateUpdate")
  read := some (str "resourceArmSqlMiServerRead")
  update := some (str "resourceArmSqlMiServerCreateUpdate")
  delete := some (str "resourceArmSqlMiServerDelete")
  importer := some (str "ImporterValidatingResourceId")

/-- `TargetResource` (chaos, typed SDK): implements `sdk.Resource` with
Create/Read/Delete funcs only — there is no Update func; import validation
comes from `IDValidationFunc`. -/
def chaosTargetResourceDecl : ResourceDeclaration where
  resourceName := str "azurerm_chaos_target"
  schemaFields := [str "name", str "resource_group_name", str "location",
    str "parent_resource_type", str "parent_name", str "parent_provider_namespace"]
  create := some (str "TargetResource.Create")
  read := some (str "TargetResource.Read")
  update := none
  delete := some (str "TargetResource.Delete")
  importer := some (str "IDValidationFunc")

/-- `AnomalyAlertResource` (costmanagement, typed SDK). -/
def anomalyAlertResourceDecl : ResourceDeclaration where
  resourceName := str "azurerm_cost_anomaly_alert"
  schemaFields := [str "name", str "email_subject", str "email_addresses",
    str "message"]
  create := some (str "AnomalyAlertResource.Create")
  read := some (str "AnomalyAlertResource.Read")
  update := some (str "AnomalyAlertResource.Update")
  delete := some (str "AnomalyAlertResource.Delete")
  importer := some (str "IDValidationFunc")

/-- The resource declarations found in the provided source files. -/
def declaredResources : List ResourceDeclaration :=
  [resourceCosmosDbRoleAssignment, resourceAutomationPowerShell72Module,
   resourceKubernetesArcExtension, resourceArmApplicationInsightsWorkBook,
   resourceFirewallPolicy, resourceKubernetesMaintenanceConfiguration,
   resourceFunctionAppHostKeys, resourceArmSqlMiServer,
   chaosTargetResourceDecl, anomalyAlertResourceDecl]

/-- C1 counterexample: the cosmos role-assignment resource declares no Update
handler (it is commented out in the source), the Kubernetes Arc extension and
chaos target declare no Update, and the function-app host-keys resource
declares no Importer — so not every declared resource implements all five
operations. -/
theorem claim_C1_counterexample :
    resourceCosmosDbRoleAssignment ∈ declaredResources ∧
    resourceCosmosDbRoleAssignment.update = none ∧
    resourceKubernetesArcExtension ∈ declaredResources ∧
    resourceKubernetesArcExtension.update = none ∧
    resourceFunctionAppHostKeys ∈ declaredResources ∧
    resourceFunctionAppHostKeys.importer = none ∧
    ¬ ∀ r ∈ declaredResources,
        r.schemaFields ≠ [] ∧ r.create.isSome = true ∧ r.read.isSome = true ∧
        r.update.isSome = true ∧ r.delete.isSome = true ∧
        r.importer.isSome = true := by
  refine ⟨by decide, rfl, by decide, rfl, by decide, rfl, fun hall => ?_⟩
  exact absurd (hall resourceCosmosDbRoleAssignment (by decide)).2.2.2.1 (by decide)

/-- C1 (amended): every declared resource supplies a non-empty schema and
Create, Read and Delete handlers; Update and Importer are present for most
resources but absent from some declarations. -/
theorem claim_C1_amended (r : ResourceDeclaration) (h : r ∈ declaredResources) :
    r.schemaFields ≠ [] ∧ r.create.isSome = true ∧ r.read.isSome = true ∧
    r.delete.isSome = true := by
  fin_cases h <;> decide

/-- Witness for the amended C1 at the cosmos role-assignment declaration. -/
theorem claim_C1_witness :
    resourceCosmosDbRoleAssignment ∈ declaredResources ∧
    resourceCosmosDbRoleAssignment.schemaFields ≠ [] ∧
    resourceCosmosDbRoleAssignment.create.isSome = true ∧
    resourceCosmosDbRoleAssignment.read.isSome = true ∧
    resourceCosmosDbRoleAssignment.delete.isSome = true :=
  ⟨by decide, claim_C1_amended resourceCosmosDbRoleAssignment (by decide)⟩

/-- Outcome of a remote `Get` call, as seen by the Go code: whether `err` was
non-nil and whether `response.WasNotFound(resp)` held. -/
structure GetOutcome where
  err : Bool
  wasNotFound : Bool
  deriving DecidableEq, Repr

/-- The remote calls a CRUD function can issue. -/
inductive RemoteCall where
  | get
  | createOrUpdate
  | delete
  deriving DecidableEq, Repr

/-- Result of a create function, by its `return` site. -/
inductive CreateResult where
  | ok
  | checkError
  | importAsExistsError
  | createError
  deriving DecidableEq, Repr

/-- `costManagementViewBaseResource.createFunc`: checks for an existing view,
raises `tf.ImportAsExistsError` when the existence check does not report
not-found, and only then calls `CreateOrUpdateByScope`. -/
def costManagementViewCreateFunc (existing : GetOutcome) (createErr : Bool) :
    CreateResult × List RemoteCall :=
  if existing.err ∧ ¬existing.wasNotFound then (.checkError, [.get])
  else if ¬existing.wasNotFound then (.importAsExistsError, [.get])
  else if createErr then (.createError, [.get, .createOrUpdate])
  else (.ok, [.get, .createOrUpdate])

/-- `TargetResource.Create` (chaos): identical existence-check shape. -/
def chaosTargetCreate (existing : GetOutcome) (createErr : Bool) :
    CreateResult × List RemoteCall :=
  if existing.err ∧ ¬existing.wasNotFound then (.checkError, [.get])
  else if ¬existing.wasNotFound then (.importAsExistsError, [.get])
  else if createErr then (.createError, [.get, .createOrUpdate])
  else (.ok, [.get, .createOrUpdate])

/-- `module.ModuleProperties` as used by the PowerShell 7.2 module resource:
the provisioning state, the `IsGlobal` flag and the `Error.Message` pointer
chain (`some (some msg)` = Error non-nil with non-nil Message). -/
structure ModuleProperties where
  provisioningState : Option GoStr
  isGlobal : Option Bool
  errField : Option (Option GoStr)
  deriving DecidableEq, Repr

/-- `module.Module` (response model). -/
structure ModuleModel where
  properties : Option ModuleProperties
  deriving DecidableEq, Repr

/-- Outcome of `PowerShell72ModuleGet`. -/
structure ModuleGetOutcome where
  err : Bool
  wasNotFound : Bool
  model : Option ModuleModel
  deriving DecidableEq, Repr

/-- `existing.Model != nil && existing.Model.Properties != nil &&
existing.Model.Properties.IsGlobal != nil && *...IsGlobal`. -/
def moduleIsGlobal (o : ModuleGetOutcome) : Bool :=
  match o.model with
  | some m =>
    match m.properties with
    | some props =>
      match props.isGlobal with
      | some b => b
      | none => false
    | none => false
  | none => false

/-- The `Refresh` closure of the module create/update `StateChangeConf`:
returns the observed provisioning state (defaulting to `Unknown`) and an error
when the `Get` failed or the module reports a non-empty error message. -/
def moduleRefresh (o : ModuleGetOutcome) : GoStr × Option GoErr :=
  if o.err then (str "Error", some .retrievingFailure)
  else
    match o.model with
    | some model =>
      match model.properties with
      | some props =>
        let st := match props.provisioningState with
          | some s => s
          | none => str "Unknown"
        match props.errField with
        | some (some msg) =>
          if msg ≠ [] then (st, some (.moduleErrorMessage msg)) else (st, none)
        | _ => (st, none)
      | none => (str "Unknown", none)
    | none => (str "Unknown", none)

/-- The `Pending` provisioning states enumerated in the module resource's
`StateChangeConf`. -/
def modulePendingStates : List GoStr :=
  [str "ActivitiesStored", str "ConnectionTypeImported", str "ContentDownloaded",
   str "ContentRetrieved", str "ContentStored", str "ContentValidated",
   str "Created", str "Creating", str "ModuleDataStored",
   str "ModuleImportRunbookComplete", str "RunningImportModuleRunbook",
   str "StartingImportModuleRunbook", str "Updating"]

/-- The plugin SDK's `StateChangeConf.WaitForStateContext` loop over the
module's `Refresh` function: `fuel` bounds the number of refreshes before the
create timeout elapses, `outcomes` is the sequence of `Get` results the remote
API produces.  Succeeds only on the `Succeeded` target state, keeps polling on
pending states, errors on a refresh error, an unexpected state, or timeout. -/
def waitForModuleState : Nat → List ModuleGetOutcome → Except GoErr GoStr
  | 0, _ => .error .timeout
  | _ + 1, [] => .error .timeout
  | fuel + 1, o :: rest =>
    match moduleRefresh o with
    | (_, some e) => .error e
    | (st, none) =>
      if st = str "Succeeded" then .ok st
      else if st ∈ modulePendingStates then waitForModuleState fuel rest
      else .error (.unexpectedState st)

/-- Result of the module create function, by its `return` site. -/
inductive ModuleCreateResult where
  | ok
  | checkError
  | importAsExistsError
  | createError
  | waitError (e : GoErr)
  deriving DecidableEq, Repr

/-- `resourceAutomationPowerShell72ModuleCreate`: existence check (with the
global-module exception), `PowerShell72ModuleCreateOrUpdate`, then the
provisioning-state poll. -/
def resourceAutomationPowerShell72ModuleCreateFn (existing : ModuleGetOutcome)
    (createErr : Bool) (fuel : Nat) (outcomes : List ModuleGetOutcome) :
    ModuleCreateResult × List RemoteCall :=
  if existing.err ∧ ¬existing.wasNotFound then (.checkError, [.get])
  else if ¬existing.wasNotFound ∧ ¬moduleIsGlobal existing then
    (.importAsExistsError, [.get])
  else if createErr then (.createError, [.get, .createOrUpdate])
  else
    match waitForModuleState fuel outcomes with
    | .error e => (.waitError e, [.get, .createOrUpdate])
    | .ok _ => (.ok, [.get, .createOrUpdate])

/-- A `Get` response for an existing global module in its final state. -/
def globalModuleExisting : ModuleGetOutcome :=
  ⟨false, false, some ⟨some ⟨some (str "Succeeded"), some true, none⟩⟩⟩

/-- C6 counterexample: for an existing global PowerShell 7.2 module (the
existence check succeeds and does not report not-found), the create function
does not raise import-as-exists — it issues the CreateOrUpdate call and
returns success. -/
theorem claim_C6_counterexample :
    globalModuleExisting.wasNotFound = false ∧
    (resourceAutomationPowerShell72ModuleCreateFn globalModuleExisting false 1
        [globalModuleExisting]).1 = .ok ∧
    RemoteCall.createOrUpdate ∈
      (resourceAutomationPowerShell72ModuleCreateFn globalModuleExisting false 1
        [globalModuleExisting]).2 := by
  decide

/-- C6 (amended): when the existence check completes without error and does
not report not-found, the create functions fail with an import-as-exists
error and issue no create or update call — except the PowerShell 7.2 module
resource, which only does so when the existing module is not a global module
(for global modules it proceeds with an update instead). -/
theorem claim_C6_amended (existing : GetOutcome) (mexisting : ModuleGetOutcome)
    (createErr : Bool) (fuel : Nat) (outcomes : List ModuleGetOutcome)
    (h1 : existing.err = false) (h2 : existing.wasNotFound = false)
    (h3 : mexisting.err = false) (h4 : mexisting.wasNotFound = false)
    (h5 : moduleIsGlobal mexisting = false) :
    costManagementViewCreateFunc existing createErr = (.importAsExistsError, [.get]) ∧
    chaosTargetCreate existing createErr = (.importAsExistsError, [.get]) ∧
    resourceAutomationPowerShell72ModuleCreateFn mexisting createErr fuel outcomes =
      (.importAsExistsError, [.get]) := by
  refine ⟨?_, ?_, ?_⟩
  · unfold costManagementViewCreateFunc
    rw [if_neg (by simp [h1]), if_pos (by simp [h2])]
  · unfold chaosTargetCreate
    rw [if_neg (by simp [h1]), if_pos (by simp [h2])]
  · unfold resourceAutomationPowerShell72ModuleCreateFn
    rw [if_neg (by simp [h3]), if_pos (by simp [h4, h5])]

/-- Witness for the amended C6 at a concrete existing (found, non-global)
resource. -/
theorem claim_C6_witness :
    costManagementViewCreateFunc ⟨false, false⟩ false =
      (.importAsExistsError, [.get]) ∧
    resourceAutomationPowerShell72ModuleCreateFn ⟨false, false, none⟩ false 0 [] =
      (.importAsExistsError, [.get]) :=
  ⟨(claim_C6_amended ⟨false, false⟩ ⟨false, false, none⟩ false 0 []
      rfl rfl rfl rfl rfl).1,
   (claim_C6_amended ⟨false, false⟩ ⟨false, false, none⟩ false 0 []
      rfl rfl rfl rfl rfl).2.2⟩

/-- Result of a read function, by its `return` site: `markedGone` is
`metadata.MarkAsGone` / `d.SetId("")` (removing the resource from state). -/
inductive ReadResult where
  | ok
  | parseError
  | markedGone
  | readError
  deriving DecidableEq, Repr

/-- `costManagementViewBaseResource.readFunc`: on a `Get` failure, marks the
resource as gone when the response was a 404 and returns the error
otherwise. -/
def costManagementViewReadFunc (idParseOk : Bool) (get : GetOutcome) : ReadResult :=
  if ¬idParseOk then .parseError
  else if get.err then (if get.wasNotFound then .markedGone else .readError)
  else .ok

/-- `resourceAutomationPowerShell72ModuleRead`: same not-found handling as the
template (`d.SetId("")` exactly on 404). -/
def resourceAutomationPowerShell72ModuleReadFn (idParseOk : Bool)
    (get : GetOutcome) : ReadResult :=
  if ¬idParseOk then .parseError
  else if get.err then (if get.wasNotFound then .markedGone else .readError)
  else .ok

/-- `TargetResource.Read` (chaos), as written in the source: on a `Get`
failure it calls `metadata.MarkAsGone` when the response was NOT a 404 and
returns the error when it WAS a 404 — the branches are inverted relative to
the template. -/
def chaosTargetRead (idParseOk : Bool) (get : GetOutcome) : ReadResult :=
  if ¬idParseOk then .parseError
  else if get.err then (if ¬get.wasNotFound then .markedGone else .readError)
  else .ok

/-- `resourceCosmosDbRoleAssignmentRead`, as written in the source: every
`Get` failure — 404 included — returns the error; the resource is never
removed from state. -/
def resourceCosmosDbRoleAssignmentReadFn (idParseOk : Bool)
    (get : GetOutcome) : ReadResult :=
  if ¬idParseOk then .parseError
  else if get.err then .readError
  else .ok

/-- C7: the template read (costmanagement views, module read) removes the
resource from state exactly on a 404 `Get` failure and propagates every other
failure, but `TargetResource.Read` has the two branches inverted (it marks
the resource as gone exactly on non-404 failures) and
`resourceCosmosDbRoleAssignmentRead` returns an error even on 404. -/
theorem claim_C7_read_divergence :
    (∀ get : GetOutcome,
      (costManagementViewReadFunc true get = .markedGone ↔
        get.err = true ∧ get.wasNotFound = true) ∧
      (resourceAutomationPowerShell72ModuleReadFn true get = .markedGone ↔
        get.err = true ∧ get.wasNotFound = true)) ∧
    chaosTargetRead true ⟨true, true⟩ = .readError ∧
    chaosTargetRead true ⟨true, false⟩ = .markedGone ∧
    resourceCosmosDbRoleAssignmentReadFn true ⟨true, true⟩ = .readError := by
  refine ⟨fun get => ?_, by decide, by decide, by decide⟩
  obtain ⟨e, nf⟩ := get
  cases e <;> cases nf <;> simp [costManagementViewReadFunc,
    resourceAutomationPowerShell72ModuleReadFn]

theorem waitForModuleState_ok_succeeded : ∀ {fuel : Nat}
    {outcomes : List ModuleGetOutcome} {st : GoStr},
    waitForModuleState fuel outcomes = .ok st →
    st = str "Succeeded" ∧
    ∃ o ∈ outcomes, moduleRefresh o = (str "Succeeded", none) := by
  intro fuel
  induction fuel with
  | zero => intro outcomes st h; simp [waitForModuleState] at h
  | succ n ih =>
    intro outcomes st h
    cases outcomes with
    | nil => simp [waitForModuleState] at h
    | cons o rest =>
      simp only [waitForModuleState] at h
      cases hr : moduleRefresh o with
      | mk st' e =>
        rw [hr] at h
        cases e with
        | some err => simp at h
        | none =>
          dsimp only at h
          by_cases hs : st' = str "Succeeded"
          · rw [if_pos hs] at h
            simp only [Except.ok.injEq] at h
            subst h
            exact ⟨hs, o, List.mem_cons_self _ _, by rw [hr, hs]⟩
          · rw [if_neg hs] at h
            by_cases hp : st' ∈ modulePendingStates
            · rw [if_pos hp] at h
              obtain ⟨h1, o', ho', h2⟩ := ih h
              exact ⟨h1, o', List.mem_cons_of_mem _ ho', h2⟩
            · rw [if_neg hp] at h; simp at h

/-- C9: the module create returns success only after the provisioning state
has been observed to reach `Succeeded`; the poll loop keeps polling while the
state is a pending one, errors as soon as a refresh fails or the module
reports a non-empty error message, and errors when the timeout elapses. -/
theorem claim_C9_modulePolling :
    (∀ (existing : ModuleGetOutcome) (createErr : Bool) (fuel : Nat)
        (outcomes : List ModuleGetOutcome),
      (resourceAutomationPowerShell72ModuleCreateFn existing createErr fuel
          outcomes).1 = .ok →
      ∃ o ∈ outcomes, moduleRefresh o = (str "Succeeded", none)) ∧
    (∀ (fuel : Nat) (o : ModuleGetOutcome) (rest : List ModuleGetOutcome),
      o.err = true →
      waitForModuleState (fuel + 1) (o :: rest) = .error .retrievingFailure) ∧
    (∀ (fuel : Nat) (o : ModuleGetOutcome) (rest : List ModuleGetOutcome)
        (st msg : GoStr),
      moduleRefresh o = (st, some (.moduleErrorMessage msg)) →
      waitForModuleState (fuel + 1) (o :: rest) = .error (.moduleErrorMessage msg)) ∧
    (∀ (fuel : Nat) (o : ModuleGetOutcome) (rest : List ModuleGetOutcome)
        (st : GoStr),
      moduleRefresh o = (st, none) → st ∈ modulePendingStates →
      st ≠ str "Succeeded" →
      waitForModuleState (fuel + 1) (o :: rest) = waitForModuleState fuel rest) ∧
    (∀ outcomes : List ModuleGetOutcome,
      waitForModuleState 0 outcomes = .error .timeout) := by
  refine ⟨?_, ?_, ?_, ?_, ?_⟩
  · intro existing createErr fuel outcomes h
    unfold resourceAutomationPowerShell72ModuleCreateFn at h
    split at h
    · simp at h
    · split at h
      · simp at h
      · split at h
        · simp at h
        · cases hw : waitForModuleState fuel outcomes with
          | error e => rw [hw] at h; simp at h
          | ok st => exact (waitForModuleState_ok_succeeded hw).2
  · intro fuel o rest h
    simp [waitForModuleState, moduleRefresh, h]
  · intro fuel o rest st msg h
    simp only [waitForModuleState]
    rw [h]
  · intro fuel o rest st h hp hs
    simp only [waitForModuleState]
    rw [h]
    dsimp only
    rw [if_neg hs, if_pos hp]
  · intro outcomes
    rfl

/-- A `Get` outcome whose module reports the `Succeeded` state. -/
def moduleSucceededOutcome : ModuleGetOutcome :=
  ⟨false, true, some ⟨some ⟨some (str "Succeeded"), none, none⟩⟩⟩

/-- Witness for C9 at a concrete create run that polls once and observes
`Succeeded`. -/
theorem claim_C9_witness :
    (resourceAutomationPowerShell72ModuleCreateFn ⟨false, true, none⟩ false 1
      [moduleSucceededOutcome]).1 = .ok ∧
    ∃ o ∈ [moduleSucceededOutcome], moduleRefresh o = (str "Succeeded", none) :=
  ⟨by decide,
   claim_C9_modulePolling.1 ⟨false, true, none⟩ false 1 [moduleSucceededOutcome]
     (by decide)⟩

/-- `targets.Target` (chaos SDK, embedded in this repository). -/
structure Target where
  name : GoStr
  deriving DecidableEq, Repr

/-- `targets.ListResponse` (chaos SDK, embedded in this repository): one page
of results plus the `nextLink` continuation. -/
structure ListResponse where
  model : Option (List Target)
  nextLink : Option GoStr
  deriving DecidableEq, Repr

/-- `ListResponse.HasMore`. -/
def ListResponse.HasMore (r : ListResponse) : Bool := r.nextLink.isSome

/-- `ListResponse.LoadMore`: errors when no nextLink is stored, otherwise
fetches the next page through `nextPageFunc` (modelled as the environment
function `pages` from nextLink to page). -/
def ListResponse.LoadMore (pages : GoStr → Except GoErr ListResponse)
    (r : ListResponse) : Except GoErr ListResponse :=
  match r.nextLink with
  | none => .error .noMorePages
  | some link => pages link

/-- The `for page.HasMore()` loop of
`TargetsClient.ListCompleteMatchingPredicate` (with the always-true
`TargetPredicate{}`); `fuel` bounds the number of page fetches. -/
def listCompleteLoop (pages : GoStr → Except GoErr ListResponse) :
    Nat → ListResponse → List Target → Except GoErr (List Target)
  | 0, page, acc => if page.HasMore then .error .timeout else .ok acc
  | fuel + 1, page, acc =>
    if page.HasMore then
      match page.LoadMore pages with
      | .error _ => .error .pageLoadFailure
      | .ok next =>
        listCompleteLoop pages fuel next (acc ++ (next.model.getD []))
    else .ok acc

/-- `TargetsClient.ListComplete`: collects the first page's items then follows
`nextLink` pages until `HasMore` is false. -/
def ListComplete (pages : GoStr → Except GoErr ListResponse) (fuel : Nat)
    (first : Except GoErr ListResponse) : Except GoErr (List Target) :=
  match first with
  | .error _ => .error .pageLoadFailure
  | .ok page => listCompleteLoop pages fuel page (page.model.getD [])

/-- C2 counterexample: this repository itself implements resource-ID parsing
(the generated `parse.SqlRoleAssigmentID`) and result pagination (the
embedded chaos SDK's `List`/`LoadMore`/`ListComplete`): at concrete inputs
the in-repo parser decomposes an ID and the in-repo pagination loop follows a
nextLink and aggregates two pages. -/
theorem claim_C2_counterexample :
    SqlRoleAssigmentID
      (str "/subscriptions/s2/resourceGroups/g2/providers/Microsoft.DocumentDB/databaseAccounts/a2/sqlRoleAssignments/r2")
      = .ok ⟨str "s2", str "g2", str "a2", str "r2"⟩ ∧
    (let pages : GoStr → Except GoErr ListResponse := fun link =>
        if link = str "page2" then .ok ⟨some [⟨str "t2"⟩], none⟩
        else .error .pageLoadFailure
     ListResponse.LoadMore pages ⟨some [⟨str "t1"⟩], some (str "page2")⟩ =
        .ok ⟨some [⟨str "t2"⟩], none⟩ ∧
     ListComplete pages 2 (.ok ⟨some [⟨str "t1"⟩], some (str "page2")⟩) =
        .ok [⟨str "t1"⟩, ⟨str "t2"⟩]) := by
  refine ⟨by decide, by decide, by decide⟩

/-- C2 (amended): the plugin SDK's timeout/state-polling helpers and the HTTP
retry/backoff live in external dependencies, but this repository itself
contains generated resource-ID parsers (`parse.SqlRoleAssigmentID`) and an
embedded chaos SDK whose `LoadMore` implements result pagination: it follows
the stored nextLink when one is present and errors when none is. -/
theorem claim_C2_amended (pages : GoStr → Except GoErr ListResponse)
    (r : ListResponse) (link : GoStr) (h : r.nextLink = some link) :
    ListResponse.HasMore r = true ∧
    ListResponse.LoadMore pages r = pages link ∧
    (∀ r' : ListResponse, r'.nextLink = none →
      ListResponse.LoadMore pages r' = .error .noMorePages) := by
  refine ⟨?_, ?_, ?_⟩
  · simp [ListResponse.HasMore, h]
  · simp [ListResponse.LoadMore, h]
  · intro r' h'
    simp [ListResponse.LoadMore, h']

/-- Witness for the amended C2 at a concrete one-page environment. -/
theorem claim_C2_witness :
    (⟨some [⟨str "t1"⟩], some (str "page2")⟩ : ListResponse).nextLink =
      some (str "page2") ∧
    ListResponse.HasMore ⟨some [⟨str "t1"⟩], some (str "page2")⟩ = true :=
  ⟨rfl,
   (claim_C2_amended (fun _ => .error .pageLoadFailure)
     ⟨some [⟨str "t1"⟩], some (str "page2")⟩ (str "page2") rfl).1⟩

/-- `kusto.ScriptCheckNameRequest`: the two pointer fields validated by
`CheckNameAvailability`. -/
structure ScriptCheckNameRequest where
  Name : Option GoStr
  Type' : Option GoStr
  deriving DecidableEq, Repr

/-- The stages of the autorest request pipeline that
`CheckNameAvailability` walks through. -/
inductive HttpStep where
  | prepare
  | send
  | respond
  deriving DecidableEq, Repr

/-- `kusto.CheckNameResult` (payload abstracted to the name-available flag). -/
structure CheckNameResult where
  nameAvailable : Option Bool
  deriving DecidableEq, Repr

/-- The remote side of the `CheckNameAvailability` pipeline: whether each
stage fails, and the decoded result on success. -/
structure KustoEnv where
  prepareErr : Bool
  sendErr : Bool
  respondErr : Bool
  result : CheckNameResult
  deriving DecidableEq, Repr

/-- `ScriptsClient.CheckNameAvailability`: validates that `scriptName.Name`
and `scriptName.Type` are non-nil before preparing, sending and responding to
the HTTP request; returns the issued pipeline steps alongside the result. -/
def ScriptsClient.CheckNameAvailability (scriptName : ScriptCheckNameRequest)
    (env : KustoEnv) : Except GoErr CheckNameResult × List HttpStep :=
  if scriptName.Name = none ∨ scriptName.Type' = none then
    (.error .validationError, [])
  else if env.prepareErr then (.error .preparingFailure, [.prepare])
  else if env.sendErr then (.error .sendingFailure, [.prepare, .send])
  else if env.respondErr then
    (.error .respondingFailure, [.prepare, .send, .respond])
  else (.ok env.result, [.prepare, .send, .respond])

/-- C10: `CheckNameAvailability` returns a validation error and performs no
pipeline step whenever `Name` or `Type` is nil; when both are non-nil the
request is prepared, and sent unless preparation failed. -/
theorem claim_C10_checkNameAvailability (req : ScriptCheckNameRequest)
    (env : KustoEnv) :
    (req.Name = none ∨ req.Type' = none →
      ScriptsClient.CheckNameAvailability req env = (.error .validationError, [])) ∧
    (req.Name ≠ none → req.Type' ≠ none →
      HttpStep.prepare ∈ (ScriptsClient.CheckNameAvailability req env).2 ∧
      (env.prepareErr = false →
        HttpStep.send ∈ (ScriptsClient.CheckNameAvailability req env).2)) := by
  constructor
  · intro h
    unfold ScriptsClient.CheckNameAvailability
    rw [if_pos h]
  · intro h1 h2
    unfold ScriptsClient.CheckNameAvailability
    rw [if_neg (by simp [h1, h2])]
    constructor
    · split
      · simp
      · split
        · simp
        · split <;> simp
    · intro hp
      rw [if_neg (by simp [hp])]
      split
      · simp
      · split <;> simp

/-- Witness for C10 at a nil-name request and a complete request. -/
theorem claim_C10_witness :
    ScriptsClient.CheckNameAvailability ⟨none, some (str "Microsoft.Kusto/clusters/databases/scripts")⟩
      ⟨false, false, false, ⟨some true⟩⟩ = (.error .validationError, []) ∧
    HttpStep.prepare ∈ (ScriptsClient.CheckNameAvailability
      ⟨some (str "script1"), some (str "Microsoft.Kusto/clusters/databases/scripts")⟩
      ⟨false, false, false, ⟨some true⟩⟩).2 :=
  ⟨(claim_C10_checkNameAvailability ⟨none, some (str "Microsoft.Kusto/clusters/databases/scripts")⟩
      ⟨false, false, false, ⟨some true⟩⟩).1 (Or.inl rfl),
   ((claim_C10_checkNameAvailability
      ⟨some (str "script1"), some (str "Microsoft.Kusto/clusters/databases/scripts")⟩
      ⟨false, false, false, ⟨some true⟩⟩).2 (by simp) (by simp)).1⟩
